import Mathlib

/-!
Verification of the build orchestration logic of `setup.py` (dd-trace-py).

The file shallowly embeds the logic of the setup script itself: the vendored
sub-project extension loaders, the extension aggregation, the resilient
`optional_build_ext` command, and the module-level installation fallback
guarded by the `DDTRACE_BUILD_RAISE` environment variable.  External
behaviour (the compiler, `setuptools.setup`, the CPython import machinery,
the vendored `get_extensions` accessors) is passed in as parameters or
modelled from its documented semantics; everything else is translated
directly from the source.
-/

namespace DDSetup

/-- Python exception values relevant to `setup.py`, identified by class and
message.  `other` stands for any `Exception` subclass outside the named
ones (the script only ever catches subclasses of `Exception`). -/
inductive Exc where
  | cCompilerError (msg : String)
  | distutilsExecError (msg : String)
  | distutilsPlatformError (msg : String)
  | ioError (msg : String)
  | osError (msg : String)
  | other (cls : String) (msg : String)
deriving DecidableEq

/-- `str(e)` as used by the `%s` formats of the warnings: the message. -/
def Exc.str : Exc → String
  | .cCompilerError m => m
  | .distutilsExecError m => m
  | .distutilsPlatformError m => m
  | .ioError m => m
  | .osError m => m
  | .other _ m => m

/-- A native extension build specification; the script only ever reads its
`name` attribute, the rest is opaque to it. -/
structure Ext where
  name : String
deriving DecidableEq

/-- Membership in the `build_ext_errors` tuple:
`(CCompilerError, DistutilsExecError, DistutilsPlatformError, IOError, OSError)`
when `sys.platform == "win32"`, and without the last two otherwise. -/
def build_ext_errors (platform : String) : Exc → Bool
  | .cCompilerError _ => true
  | .distutilsExecError _ => true
  | .distutilsPlatformError _ => true
  | .ioError _ => platform == "win32"
  | .osError _ => platform == "win32"
  | .other _ _ => false

/-- The warning printed by `optional_build_ext.build_extension`. -/
def extWarn (ext : Ext) (e : Exc) : String :=
  "WARNING: Failed to build extension " ++ ext.name ++ ", skipping: " ++ e.str

/-- Python `repr` of a string: surrounded by single quotes. -/
def pyQuote (s : String) : String := "\x27" ++ s ++ "\x27"

/-- Python `repr` of a list of strings, as produced by the `%r` format. -/
def pyReprStrList (l : List String) : String :=
  "[" ++ String.intercalate ", " (l.map pyQuote) ++ "]"

/-- The warning printed by `optional_build_ext.run`. -/
def runWarn (extensions : List Ext) (e : Exc) : String :=
  "WARNING: Failed to build extensions " ++ pyReprStrList (extensions.map Ext.name)
    ++ ", skipping: " ++ e.str

/-- `optional_build_ext.build_extension`: run the underlying
`build_ext.build_extension` (given as `compile`, `none` meaning success) and
demote any `build_ext_errors` exception to a printed warning.  The result is
the list of lines printed paired with the escaping exception, if any. -/
def optional_build_extension (platform : String) (compile : Ext → Option Exc)
    (ext : Ext) : List String × Option Exc :=
  match compile ext with
  | none => ([], none)
  | some e =>
      if build_ext_errors platform e then ([extWarn ext e], none)
      else ([], some e)

/-- `optional_build_ext.run`: run the underlying `build_ext.run` (given as
its outcome `base`: printed lines paired with an escaping exception, if any)
and demote a `DistutilsPlatformError` to a single printed warning naming
every requested extension. -/
def optional_run (extensions : List Ext) (base : List String × Option Exc) :
    List String × Option Exc :=
  match base.2 with
  | none => base
  | some (.distutilsPlatformError m) =>
      (base.1 ++ [runWarn extensions (.distutilsPlatformError m)], none)
  | some _ => base

/-- The loop performed by the underlying `build_ext.run` over the requested
extensions: the distutils `build_ext.run` calls `self.build_extensions`,
which invokes the (overridden) `build_extension` on each extension in turn,
so the per-extension demotion of `optional_build_ext.build_extension`
applies inside the loop. -/
def build_extensions_loop (platform : String) (compile : Ext → Option Exc) :
    List Ext → List String × Option Exc
  | [] => ([], none)
  | ext :: rest =>
      let (ws, r) := optional_build_extension platform compile ext
      match r with
      | some e => (ws, some e)
      | none =>
          let (ws2, r2) := build_extensions_loop platform compile rest
          (ws ++ ws2, r2)

/-- The observable content of a Python source file on disk: an identifier
for its code, and the exception its execution raises, if any. -/
structure FileCode where
  codeId : Nat
  raises : Option Exc
deriving DecidableEq

/-- A Python module object: its `__name__`, an object identity (fresh
allocations get distinct ids), and the code it was executed from. -/
structure PyModule where
  name : String
  objId : Nat
  code : Nat
deriving DecidableEq

/-- The interpreter state touched by module loading: the `sys.modules`
cache, the record of which files have been executed (in order), and the
allocator for module object identities. -/
structure ImportState where
  sysModules : List (String × PyModule)
  executed : List String
  nextId : Nat
deriving DecidableEq

/-- Insert or replace a binding in an association list, Python-dict style:
replace in place when the key is present, append otherwise. -/
def assocSet {α : Type} (k : String) (v : α) : List (String × α) → List (String × α)
  | [] => [(k, v)]
  | (k2, v2) :: rest => if k2 = k then (k, v) :: rest else (k2, v2) :: assocSet k v rest

/-- `os.path.join(HERE, fname)` for the paths used here (plain relative
second component). -/
def joinPath (here fname : String) : String :=
  if here = "" then fname else here ++ "/" ++ fname

/-- The Python-3.5+ branch of `load_module_from_project_file`:
`importlib.util.spec_from_file_location` + `module_from_spec` +
`spec.loader.exec_module`.  Modelled from the documented semantics of that
API: a brand-new module object is created, the file is executed into it,
and `sys.modules` is neither consulted nor written. -/
def import35 (files : String → Option FileCode) (mod_name fpath : String)
    (st : ImportState) : Except Exc (PyModule × ImportState) :=
  match files fpath with
  | none => .error (.other "FileNotFoundError" fpath)
  | some fc =>
      let st2 : ImportState :=
        { st with nextId := st.nextId + 1, executed := st.executed ++ [fpath] }
      match fc.raises with
      | some e => .error e
      | none => .ok ({ name := mod_name, objId := st.nextId, code := fc.codeId }, st2)

/-- The legacy branches of `load_module_from_project_file`
(`SourceFileLoader(...).load_module()` on Python 3.3 / 3.4 and
`imp.load_source` on Python 2).  Modelled from the documented semantics of
the legacy loader protocol (PEP 302): reuse an existing same-named entry of
`sys.modules` when present, execute the file into the module, and register
the module in `sys.modules`. -/
def importLegacy (files : String → Option FileCode) (mod_name fpath : String)
    (st : ImportState) : Except Exc (PyModule × ImportState) :=
  match files fpath with
  | none => .error (.other "FileNotFoundError" fpath)
  | some fc =>
      match fc.raises with
      | some e => .error e
      | none =>
          match st.sysModules.lookup mod_name with
          | some m0 =>
              let m : PyModule := { m0 with code := fc.codeId }
              .ok (m, { st with sysModules := assocSet mod_name m st.sysModules,
                                executed := st.executed ++ [fpath] })
          | none =>
              let m : PyModule := { name := mod_name, objId := st.nextId, code := fc.codeId }
              .ok (m, { st with sysModules := assocSet mod_name m st.sysModules,
                                executed := st.executed ++ [fpath],
                                nextId := st.nextId + 1 })

/-- Python version comparison `sys.version_info >= (major, minor)`
(lexicographic on the first two components). -/
def verGE (ver bound : Nat × Nat) : Bool :=
  bound.1 < ver.1 || (ver.1 == bound.1 && bound.2 ≤ ver.2)

/-- `load_module_from_project_file(mod_name, fname)`: join the file name to
the project root and load it with the import API the running Python
provides, bypassing the parent packages of the dotted module name. -/
def load_module_from_project_file (ver : Nat × Nat) (here : String)
    (files : String → Option FileCode) (mod_name fname : String)
    (st : ImportState) : Except Exc (PyModule × ImportState) :=
  let fpath := joinPath here fname
  if verGE ver (3, 5) then import35 files mod_name fpath st
  else importLegacy files mod_name fpath st

/-- The warning printed by the three `get_*_extensions` helpers. -/
def loadWarn (sub : String) (e : Exc) : String :=
  "WARNING: Failed to load " ++ sub ++ " extensions, skipping: " ++ e.str

/-- `get_msgpack_extensions()`: load the vendored msgpack build descriptor
and query its `get_extensions()` (the accessor of the vendored module is
external code, passed in as `getExts`); any exception from either step is
demoted to a warning and an empty list.  The result is the extension list
paired with the printed warnings, plus the resulting interpreter state. -/
def get_msgpack_extensions (ver : Nat × Nat) (here : String)
    (files : String → Option FileCode) (getExts : PyModule → Except Exc (List Ext))
    (st : ImportState) : (List Ext × List String) × ImportState :=
  match load_module_from_project_file ver here files
      "ddtrace.vendor.msgpack.setup" "ddtrace/vendor/msgpack/setup.py" st with
  | .error e => (([], [loadWarn "msgpack" e]), st)
  | .ok (msgpack_setup, st1) =>
      match getExts msgpack_setup with
      | .ok exts => ((exts, []), st1)
      | .error e => (([], [loadWarn "msgpack" e]), st1)

/-- `get_wrapt_extensions()`, analogous to `get_msgpack_extensions`. -/
def get_wrapt_extensions (ver : Nat × Nat) (here : String)
    (files : String → Option FileCode) (getExts : PyModule → Except Exc (List Ext))
    (st : ImportState) : (List Ext × List String) × ImportState :=
  match load_module_from_project_file ver here files
      "ddtrace.vendor.wrapt.setup" "ddtrace/vendor/wrapt/setup.py" st with
  | .error e => (([], [loadWarn "wrapt" e]), st)
  | .ok (wrapt_setup, st1) =>
      match getExts wrapt_setup with
      | .ok exts => ((exts, []), st1)
      | .error e => (([], [loadWarn "wrapt" e]), st1)

/-- `get_psutil_extensions()`, analogous to `get_msgpack_extensions`. -/
def get_psutil_extensions (ver : Nat × Nat) (here : String)
    (files : String → Option FileCode) (getExts : PyModule → Except Exc (List Ext))
    (st : ImportState) : (List Ext × List String) × ImportState :=
  match load_module_from_project_file ver here files
      "ddtrace.vendor.psutil.setup" "ddtrace/vendor/psutil/setup.py" st with
  | .error e => (([], [loadWarn "psutil" e]), st)
  | .ok (psutil_setup, st1) =>
      match getExts psutil_setup with
      | .ok exts => ((exts, []), st1)
      | .error e => (([], [loadWarn "psutil" e]), st1)

/-- The module-level aggregation (`exts = []` followed by the three guarded
`exts.extend(...)` blocks): collect the three vendored extension lists in
the fixed order msgpack, wrapt, psutil, extending only when the returned
list is truthy (non-empty).  Returns the combined list, the warnings
printed by the loaders, and the resulting interpreter state. -/
def collect_extensions (ver : Nat × Nat) (here : String)
    (files : String → Option FileCode) (getExts : PyModule → Except Exc (List Ext))
    (st : ImportState) : (List Ext × List String) × ImportState :=
  let exts : List Ext := []
  let r1 := get_msgpack_extensions ver here files getExts st
  let msgpack_extensions := r1.1.1
  let exts := if msgpack_extensions.isEmpty then exts else exts ++ msgpack_extensions
  let r2 := get_wrapt_extensions ver here files getExts r1.2
  let wrapt_extensions := r2.1.1
  let exts := if wrapt_extensions.isEmpty then exts else exts ++ wrapt_extensions
  let r3 := get_psutil_extensions ver here files getExts r2.2
  let psutil_extensions := r3.1.1
  let exts := if psutil_extensions.isEmpty then exts else exts ++ psutil_extensions
  ((exts, r1.1.2 ++ r2.1.2 ++ r3.1.2), r3.2)

/-- The values of the `cmdclass` dict: the `Tox` test command and the
`optional_build_ext` command defined by the script. -/
inductive CmdClass where
  | tox
  | optionalBuildExt
deriving DecidableEq

/-- The content of the `setup_kwargs` dict apart from `cmdclass`: the inert
metadata (keys paired with a rendering of their values; values computed at
runtime, such as `find_packages(...)`, are rendered by their source
expression), the `ext_modules` entry when present, and a reference to the
nested `cmdclass` dict when present.  The nested dict lives in its own heap
cell so that the depth of `copy.deepcopy` is observable. -/
structure KwargsVal where
  meta : List (String × String)
  ext_modules : Option (List Ext)
  cmdclassRef : Option Nat
deriving DecidableEq

/-- A heap of dict objects: top-level `setup()` kwargs dicts and nested
`cmdclass` dicts, addressed by cell ids, with a fresh-id allocator. -/
structure Heap where
  kcells : List (Nat × KwargsVal)
  ccells : List (Nat × List (String × CmdClass))
  fresh : Nat
deriving DecidableEq

/-- Update the kwargs cell `r` in place. -/
def Heap.updK (h : Heap) (r : Nat) (f : KwargsVal → KwargsVal) : Heap :=
  { h with kcells := h.kcells.map fun p => if p.1 = r then (p.1, f p.2) else p }

/-- Update the cmdclass cell `c` in place. -/
def Heap.updC (h : Heap) (c : Nat)
    (f : List (String × CmdClass) → List (String × CmdClass)) : Heap :=
  { h with ccells := h.ccells.map fun p => if p.1 = c then (p.1, f p.2) else p }

/-- The `long_description` literal of the script. -/
def long_description : String := "
# dd-trace-py

`ddtrace` is Datadog\x27s tracing library for Python.  It is used to trace requests
as they flow across web servers, databases and microservices so that developers
have great visiblity into bottlenecks and troublesome requests.

## Getting Started

For a basic product overview, installation and quick start, check out our
[setup documentation][setup docs].

For more advanced usage and configuration, check out our [API
documentation][pypi docs].

For descriptions of terminology used in APM, take a look at the [official
documentation][visualization docs].

[setup docs]: https://docs.datadoghq.com/tracing/setup/python/
[pypi docs]: http://pypi.datadoghq.com/trace/docs/
[visualization docs]: https://docs.datadoghq.com/tracing/visualization/
"

/-- The metadata entries of the base `setup_kwargs` dict (everything except
`cmdclass`, which is held in its own cell, and `ext_modules`, which is
absent from the base dict). -/
def setup_kwargs_meta : List (String × String) :=
  [ ("name", "ddtrace"),
    ("description", "Datadog tracing code"),
    ("url", "https://github.com/DataDog/dd-trace-py"),
    ("author", "Datadog, Inc."),
    ("author_email", "dev@datadoghq.com"),
    ("long_description", long_description),
    ("long_description_content_type", "text/markdown"),
    ("license", "BSD"),
    ("packages", "find_packages(exclude=[tests*])"),
    ("install_requires", "[]"),
    ("extras_require", "opentracing: [opentracing>=2.0.0]"),
    ("tests_require", "[tox, flake8]"),
    ("entry_points", "console_scripts: [ddtrace-run = ddtrace.commands.ddtrace_run:main]"),
    ("classifiers", "Programming Language :: Python :: 2.7, 3.4, 3.5, 3.6, 3.7"),
    ("use_scm_version", "True"),
    ("setup_requires", "[setuptools_scm]") ]

/-- The base `setup_kwargs` value: no `ext_modules` key, and `cmdclass`
referring to the dict cell holding `{"test": Tox}`. -/
def setup_kwargs_val : KwargsVal :=
  { meta := setup_kwargs_meta, ext_modules := none, cmdclassRef := some 0 }

/-- The heap at module level after `setup_kwargs` is defined: the base dict
in kwargs cell 0, its `cmdclass` dict in cmdclass cell 0. -/
def initHeap : Heap :=
  { kcells := [(0, setup_kwargs_val)],
    ccells := [(0, [("test", CmdClass.tox)])],
    fresh := 1 }

/-- `copy.deepcopy` of the kwargs dict at `r`: allocate a fresh copy of the
nested `cmdclass` dict (when present) and a fresh top-level dict referring
to it, leaving the originals untouched.  Returns the new reference. -/
def deepcopy (r : Nat) (h : Heap) : Nat × Heap :=
  match h.kcells.lookup r with
  | none => (r, h)
  | some v =>
      match v.cmdclassRef with
      | none =>
          let nk := h.fresh
          (nk, { h with kcells := h.kcells ++ [(nk, v)], fresh := nk + 1 })
      | some c =>
          let content := (h.ccells.lookup c).getD []
          let nc := h.fresh
          let nk := h.fresh + 1
          (nk, { kcells := h.kcells ++ [(nk, { v with cmdclassRef := some nc })],
                 ccells := h.ccells ++ [(nc, content)],
                 fresh := nk + 1 })

/-- `kwargs.setdefault("cmdclass", dict())`: allocate an empty nested dict
only when the key is absent. -/
def setdefault_cmdclass (h : Heap) (r : Nat) : Heap :=
  match h.kcells.lookup r with
  | none => h
  | some v =>
      match v.cmdclassRef with
      | some _ => h
      | none =>
          let nc := h.fresh
          let h2 : Heap := { h with ccells := h.ccells ++ [(nc, [])], fresh := nc + 1 }
          h2.updK r fun v2 => { v2 with cmdclassRef := some nc }

/-- `kwargs["cmdclass"]["build_ext"] = optional_build_ext`. -/
def set_build_ext (h : Heap) (r : Nat) : Heap :=
  match h.kcells.lookup r with
  | none => h
  | some v =>
      match v.cmdclassRef with
      | none => h
      | some c => h.updC c (assocSet "build_ext" CmdClass.optionalBuildExt)

/-- The argument values a `setup(**kwargs)` call actually receives: the
dicts dereferenced at call time. -/
structure Snapshot where
  meta : List (String × String)
  ext_modules : Option (List Ext)
  cmdclass : List (String × CmdClass)
deriving DecidableEq

/-- Dereference the kwargs dict at `r` into the values passed to `setup`. -/
def heapSnapshot (h : Heap) (r : Nat) : Snapshot :=
  match h.kcells.lookup r with
  | none => { meta := [], ext_modules := none, cmdclass := [] }
  | some v =>
      { meta := v.meta,
        ext_modules := v.ext_modules,
        cmdclass := match v.cmdclassRef with
                    | none => []
                    | some c => (h.ccells.lookup c).getD [] }

/-- The kwargs construction of State A (`kwargs = copy.deepcopy(setup_kwargs)`,
`kwargs["ext_modules"] = exts`, `kwargs.setdefault("cmdclass", dict())`,
`kwargs["cmdclass"]["build_ext"] = optional_build_ext`), starting from the
module-level heap. -/
def stateA_heap (exts : List Ext) : Heap :=
  let p := deepcopy 0 initHeap
  let h2 := p.2.updK p.1 fun v => { v with ext_modules := some exts }
  let h3 := setdefault_cmdclass h2 p.1
  set_build_ext h3 p.1

/-- The reference of the deep copy built by State A. -/
def stateA_ref : Nat := (deepcopy 0 initHeap).1

/-- The warning printed before falling back to the pure-Python install. -/
def fallbackWarn (e : Exc) : String :=
  "WARNING: Failed to install with ddtrace C-extensions, falling back to pure-Python only extensions: "
    ++ e.str

/-- The module-level try/except of the script.  `setupRun` is the external
`setup(**...)` procedure, a function of the argument values it receives
(`none` meaning it returns, `some e` meaning it raises `e`); `env` is
`os.environ.get("DDTRACE_BUILD_RAISE")`.  The result is the list of lines
the script itself prints, the exception escaping the whole script (if any),
and the argument values of each `setup` call made, in order. -/
def module_main (ver : Nat × Nat) (here : String)
    (files : String → Option FileCode) (getExts : PyModule → Except Exc (List Ext))
    (setupRun : Snapshot → Option Exc) (env : Option String)
    (st : ImportState) : List String × Option Exc × List Snapshot :=
  let r := collect_extensions ver here files getExts st
  let exts := r.1.1
  let lw := r.1.2
  let h := stateA_heap exts
  let snapA := heapSnapshot h stateA_ref
  match setupRun snapA with
  | none => (lw, none, [snapA])
  | some e =>
      if env = some "TRUE" then (lw, some e, [snapA])
      else
        let snapB := heapSnapshot h 0
        (lw ++ [fallbackWarn e], setupRun snapB, [snapA, snapB])

/-- The argument values the State A `setup(**kwargs)` call receives, as a
function of the inputs of the script. -/
def stateA_snapshot (ver : Nat × Nat) (here : String)
    (files : String → Option FileCode) (getExts : PyModule → Except Exc (List Ext))
    (st : ImportState) : Snapshot :=
  heapSnapshot (stateA_heap (collect_extensions ver here files getExts st).1.1) stateA_ref

/-- The argument values the State B `setup(**setup_kwargs)` call receives,
as a function of the inputs of the script. -/
def stateB_snapshot (ver : Nat × Nat) (here : String)
    (files : String → Option FileCode) (getExts : PyModule → Except Exc (List Ext))
    (st : ImportState) : Snapshot :=
  heapSnapshot (stateA_heap (collect_extensions ver here files getExts st).1.1) 0

/-- A model `setup` procedure whose only failure source is the build step:
when the received kwargs carry `optional_build_ext` as the `build_ext`
handler together with an `ext_modules` list, it runs the resilient build
step over that list and raises whatever escapes it; otherwise it returns
normally. -/
def setup_with_build (platform : String) (compile : Ext → Option Exc)
    (snap : Snapshot) : Option Exc :=
  match snap.cmdclass.lookup "build_ext", snap.ext_modules with
  | some CmdClass.optionalBuildExt, some exts =>
      (optional_run exts (build_extensions_loop platform compile exts)).2
  | _, _ => none

/-- Demo file system with no vendored descriptor present. -/
def demoFiles : String → Option FileCode := fun _ => none

/-- Demo file system where the msgpack and psutil descriptors exist and the
wrapt one is missing. -/
def demoFiles2 : String → Option FileCode := fun p =>
  if p = "ddtrace/vendor/msgpack/setup.py" then some { codeId := 1, raises := none }
  else if p = "ddtrace/vendor/psutil/setup.py" then some { codeId := 2, raises := none }
  else none

/-- Demo accessor returning no extensions. -/
def demoGetExts : PyModule → Except Exc (List Ext) := fun _ => Except.ok []

/-- Demo accessor returning one extension per vendored descriptor. -/
def demoGetExts2 : PyModule → Except Exc (List Ext) := fun m =>
  if m.code = 1 then Except.ok [{ name := "msgpack._cmsgpack" }]
  else Except.ok [{ name := "psutil._psutil_linux" }]

/-- Demo `setup` procedure that always raises a `RuntimeError`. -/
def demoSetupFail : Snapshot → Option Exc := fun _ => some (Exc.other "RuntimeError" "boom")

/-- Demo underlying compiler invocation that always fails with a
`CCompilerError`. -/
def demoCompileFail : Ext → Option Exc := fun _ => some (Exc.cCompilerError "cc not found")

/-- The interpreter state at the start of the script. -/
def demoState : ImportState := { sysModules := [], executed := [], nextId := 0 }

/-! ## Helper lemmas -/

lemma assocSet_lookup {α : Type} (k : String) (v : α) (l : List (String × α)) :
    (assocSet k v l).lookup k = some v := by
  induction l with
  | nil => simp [assocSet, List.lookup]
  | cons p rest ih =>
      cases p with
      | mk k2 v2 =>
          by_cases hk : k2 = k
          · simp [assocSet, hk, List.lookup]
          · have hb : (k == k2) = false := beq_eq_false_iff_ne.mpr fun h => hk h.symm
            simp [assocSet, hk, List.lookup, ih, hb]

lemma snapshotA_eq (exts : List Ext) :
    heapSnapshot (stateA_heap exts) stateA_ref =
      { meta := setup_kwargs_meta, ext_modules := some exts,
        cmdclass := [("test", CmdClass.tox), ("build_ext", CmdClass.optionalBuildExt)] } := rfl

lemma snapshotB_eq (exts : List Ext) :
    heapSnapshot (stateA_heap exts) 0 =
      { meta := setup_kwargs_meta, ext_modules := none,
        cmdclass := [("test", CmdClass.tox)] } := rfl

lemma build_extensions_loop_ok (platform : String) (compile : Ext → Option Exc)
    (h : ∀ ext e, compile ext = some e → build_ext_errors platform e = true) :
    ∀ l : List Ext, (build_extensions_loop platform compile l).2 = none := by
  intro l
  induction l with
  | nil => rfl
  | cons ext rest ih =>
      cases hc : compile ext with
      | none => simp [build_extensions_loop, optional_build_extension, hc, ih]
      | some e =>
          have hb := h ext e hc
          simp [build_extensions_loop, optional_build_extension, hc, hb, ih]

/-! ## The claims -/

/-- C1: if the State A attempt raises and `DDTRACE_BUILD_RAISE` is exactly
`"TRUE"`, the exception is re-raised and the pure fallback `setup` call is
never made (the call log holds only the State A call); for every other
value of the variable, unset included, the fallback call is made instead. -/
theorem C1_strict_override_gate (ver : Nat × Nat) (here : String)
    (files : String → Option FileCode) (getExts : PyModule → Except Exc (List Ext))
    (setupRun : Snapshot → Option Exc) (env : Option String) (st : ImportState) (e : Exc)
    (hA : setupRun (stateA_snapshot ver here files getExts st) = some e) :
    (env = some "TRUE" →
      module_main ver here files getExts setupRun env st =
        ((collect_extensions ver here files getExts st).1.2, some e,
         [stateA_snapshot ver here files getExts st])) ∧
    (env ≠ some "TRUE" →
      module_main ver here files getExts setupRun env st =
        ((collect_extensions ver here files getExts st).1.2 ++ [fallbackWarn e],
         setupRun (stateB_snapshot ver here files getExts st),
         [stateA_snapshot ver here files getExts st,
          stateB_snapshot ver here files getExts st])) := by
  simp only [stateA_snapshot] at hA
  constructor
  · intro hv
    subst hv
    simp [module_main, hA, stateA_snapshot]
  · intro hv
    simp [module_main, hA, stateA_snapshot, stateB_snapshot, hv]

/-- Witness for C1: all three loads attempted on a file system with two
descriptors present, a `setup` that raises `RuntimeError`, and the strict
override set to `"TRUE"`: the error escapes and only one call is made. -/
theorem C1_strict_override_gate_witness :
    module_main (3, 6) "" demoFiles2 demoGetExts2 demoSetupFail (some "TRUE") demoState =
      ((collect_extensions (3, 6) "" demoFiles2 demoGetExts2 demoState).1.2,
       some (Exc.other "RuntimeError" "boom"),
       [stateA_snapshot (3, 6) "" demoFiles2 demoGetExts2 demoState]) :=
  (C1_strict_override_gate (3, 6) "" demoFiles2 demoGetExts2 demoSetupFail (some "TRUE")
    demoState (Exc.other "RuntimeError" "boom") rfl).1 rfl

/-- C2: if the State A attempt raises and the override variable is unset, a
warning naming the causing exception is printed and `setup` is retried once
on the base metadata (no `ext_modules` key, the original `cmdclass` without
any build-extension handler); the retry is unguarded, so the final outcome
is exactly whatever the second call raises. -/
theorem C2_pure_fallback (ver : Nat × Nat) (here : String)
    (files : String → Option FileCode) (getExts : PyModule → Except Exc (List Ext))
    (setupRun : Snapshot → Option Exc) (st : ImportState) (e : Exc)
    (hA : setupRun (stateA_snapshot ver here files getExts st) = some e) :
    module_main ver here files getExts setupRun none st =
      ((collect_extensions ver here files getExts st).1.2 ++ [fallbackWarn e],
       setupRun (stateB_snapshot ver here files getExts st),
       [stateA_snapshot ver here files getExts st,
        stateB_snapshot ver here files getExts st]) ∧
    (stateB_snapshot ver here files getExts st).ext_modules = none ∧
    (stateB_snapshot ver here files getExts st).cmdclass = [("test", CmdClass.tox)] := by
  refine ⟨?_, rfl, rfl⟩
  simp only [stateA_snapshot] at hA
  simp [module_main, hA, stateA_snapshot, stateB_snapshot]

/-- Witness for C2: with the override unset and a `setup` raising
`RuntimeError` on every call, the fallback call is made and its failure is
the final outcome. -/
theorem C2_pure_fallback_witness :
    module_main (3, 6) "" demoFiles2 demoGetExts2 demoSetupFail none demoState =
      ((collect_extensions (3, 6) "" demoFiles2 demoGetExts2 demoState).1.2
         ++ [fallbackWarn (Exc.other "RuntimeError" "boom")],
       demoSetupFail (stateB_snapshot (3, 6) "" demoFiles2 demoGetExts2 demoState),
       [stateA_snapshot (3, 6) "" demoFiles2 demoGetExts2 demoState,
        stateB_snapshot (3, 6) "" demoFiles2 demoGetExts2 demoState]) ∧
    (stateB_snapshot (3, 6) "" demoFiles2 demoGetExts2 demoState).ext_modules = none ∧
    (stateB_snapshot (3, 6) "" demoFiles2 demoGetExts2 demoState).cmdclass =
      [("test", CmdClass.tox)] :=
  C2_pure_fallback (3, 6) "" demoFiles2 demoGetExts2 demoSetupFail demoState
    (Exc.other "RuntimeError" "boom") rfl

/-- C3: whatever each of the three loaders returns (in particular for every
subset of them failing and returning no extensions), the aggregation never
raises and yields exactly the concatenation of the returned lists in the
fixed order msgpack, wrapt, psutil, with no deduplication or reordering. -/
theorem C3_aggregation_order (ver : Nat × Nat) (here : String)
    (files : String → Option FileCode) (getExts : PyModule → Except Exc (List Ext))
    (st : ImportState) (m w p : List Ext) (w1 w2 w3 : List String)
    (st1 st2 st3 : ImportState)
    (h1 : get_msgpack_extensions ver here files getExts st = ((m, w1), st1))
    (h2 : get_wrapt_extensions ver here files getExts st1 = ((w, w2), st2))
    (h3 : get_psutil_extensions ver here files getExts st2 = ((p, w3), st3)) :
    collect_extensions ver here files getExts st = ((m ++ w ++ p, w1 ++ w2 ++ w3), st3) := by
  have h0 : ∀ (b : List Ext), (if b = [] then ([] : List Ext) else b) = b := by
    intro b; by_cases hb : b = [] <;> simp [hb]
  have hext : ∀ (a b : List Ext), (if b = [] then a else a ++ b) = a ++ b := by
    intro a b; by_cases hb : b = [] <;> simp [hb]
  simp [collect_extensions, h1, h2, h3, h0, hext]

/-- Witness for C3: msgpack and psutil load one extension each, the wrapt
descriptor is missing: the result is their concatenation in order plus the
single wrapt warning. -/
theorem C3_aggregation_order_witness :
    collect_extensions (3, 6) "" demoFiles2 demoGetExts2 demoState =
      (([{ name := "msgpack._cmsgpack" }, { name := "psutil._psutil_linux" }],
        [loadWarn "wrapt" (Exc.other "FileNotFoundError" "ddtrace/vendor/wrapt/setup.py")]),
       { sysModules := [],
         executed := ["ddtrace/vendor/msgpack/setup.py", "ddtrace/vendor/psutil/setup.py"],
         nextId := 2 }) :=
  C3_aggregation_order (3, 6) "" demoFiles2 demoGetExts2 demoState
    _ _ _ _ _ _ _ _ _ rfl rfl rfl

/-- C4: when compiling one extension raises an error, `build_extension`
prints a warning naming the extension and the error and returns normally
exactly when the error is in the recognized set, which is precisely
`CCompilerError`, `DistutilsExecError` or `DistutilsPlatformError` on all
platforms plus `IOError` and `OSError` only on `win32`; any error outside
that set propagates out of `build_extension`. -/
theorem C4_extension_error_demotion (platform : String) (compile : Ext → Option Exc)
    (ext : Ext) (e : Exc) (h : compile ext = some e) :
    (build_ext_errors platform e = true →
      optional_build_extension platform compile ext = ([extWarn ext e], none)) ∧
    (build_ext_errors platform e = false →
      optional_build_extension platform compile ext = ([], some e)) ∧
    (build_ext_errors platform e = true ↔
      (∃ m, e = Exc.cCompilerError m) ∨ (∃ m, e = Exc.distutilsExecError m) ∨
      (∃ m, e = Exc.distutilsPlatformError m) ∨
      (platform = "win32" ∧ ((∃ m, e = Exc.ioError m) ∨ (∃ m, e = Exc.osError m)))) := by
  refine ⟨fun hb => ?_, fun hb => ?_, ?_⟩
  · simp [optional_build_extension, h, hb]
  · simp [optional_build_extension, h, hb]
  · cases e <;> simp [build_ext_errors]

/-- Witness for C4: a `CCompilerError` on linux is demoted to the warning
naming the extension. -/
theorem C4_extension_error_demotion_witness :
    optional_build_extension "linux" demoCompileFail { name := "x" } =
      ([extWarn { name := "x" } (Exc.cCompilerError "cc not found")], none) :=
  (C4_extension_error_demotion "linux" demoCompileFail { name := "x" }
    (Exc.cCompilerError "cc not found") rfl).1 rfl

/-- C5: if the underlying whole-build invocation raises
`DistutilsPlatformError`, `optional_build_ext.run` catches it, prints the
single warning listing the name of every requested extension, and returns
normally, for any number of requested extensions. -/
theorem C5_run_platform_demotion (extensions : List Ext) (ws : List String) (m : String) :
    optional_run extensions (ws, some (Exc.distutilsPlatformError m)) =
      (ws ++ [runWarn extensions (Exc.distutilsPlatformError m)], none) := rfl

/-- C10: `optional_build_ext.run` demotes only `DistutilsPlatformError`:
any other exception escaping the underlying `build_ext.run` (for example a
`CCompilerError` or `DistutilsExecError` raised outside `build_extension`)
propagates out of `run` unchanged. -/
theorem C10_run_catches_only_platform_error (extensions : List Ext) (ws : List String)
    (e : Exc) (h : ∀ m, e ≠ Exc.distutilsPlatformError m) :
    optional_run extensions (ws, some e) = (ws, some e) := by
  cases e <;> first
    | rfl
    | exact absurd rfl (h _)

/-- Witness for C10: a `CCompilerError` escaping the underlying run
propagates. -/
theorem C10_run_catches_only_platform_error_witness :
    optional_run [{ name := "x" }] (["w"], some (Exc.cCompilerError "boom")) =
      (["w"], some (Exc.cCompilerError "boom")) :=
  C10_run_catches_only_platform_error [{ name := "x" }] ["w"]
    (Exc.cCompilerError "boom") fun _ hm => Exc.noConfusion hm

/-- C7: each of the three `get_*_extensions` helpers demotes any exception
raised while loading the vendored descriptor or while querying its
accessor to a warning naming the sub-project and the error, returning the
empty list; by construction none of them propagates an exception. -/
theorem C7_loader_error_demotion (ver : Nat × Nat) (here : String)
    (files : String → Option FileCode) (getExts : PyModule → Except Exc (List Ext))
    (st : ImportState) (e : Exc) :
    (load_module_from_project_file ver here files "ddtrace.vendor.msgpack.setup"
        "ddtrace/vendor/msgpack/setup.py" st = .error e →
      get_msgpack_extensions ver here files getExts st = (([], [loadWarn "msgpack" e]), st)) ∧
    (∀ md st1, load_module_from_project_file ver here files "ddtrace.vendor.msgpack.setup"
        "ddtrace/vendor/msgpack/setup.py" st = .ok (md, st1) → getExts md = .error e →
      get_msgpack_extensions ver here files getExts st = (([], [loadWarn "msgpack" e]), st1)) ∧
    (load_module_from_project_file ver here files "ddtrace.vendor.wrapt.setup"
        "ddtrace/vendor/wrapt/setup.py" st = .error e →
      get_wrapt_extensions ver here files getExts st = (([], [loadWarn "wrapt" e]), st)) ∧
    (∀ md st1, load_module_from_project_file ver here files "ddtrace.vendor.wrapt.setup"
        "ddtrace/vendor/wrapt/setup.py" st = .ok (md, st1) → getExts md = .error e →
      get_wrapt_extensions ver here files getExts st = (([], [loadWarn "wrapt" e]), st1)) ∧
    (load_module_from_project_file ver here files "ddtrace.vendor.psutil.setup"
        "ddtrace/vendor/psutil/setup.py" st = .error e →
      get_psutil_extensions ver here files getExts st = (([], [loadWarn "psutil" e]), st)) ∧
    (∀ md st1, load_module_from_project_file ver here files "ddtrace.vendor.psutil.setup"
        "ddtrace/vendor/psutil/setup.py" st = .ok (md, st1) → getExts md = .error e →
      get_psutil_extensions ver here files getExts st = (([], [loadWarn "psutil" e]), st1)) := by
  refine ⟨fun h => ?_, fun md st1 h h2 => ?_, fun h => ?_, fun md st1 h h2 => ?_,
          fun h => ?_, fun md st1 h h2 => ?_⟩
  · simp [get_msgpack_extensions, h]
  · simp [get_msgpack_extensions, h, h2]
  · simp [get_wrapt_extensions, h]
  · simp [get_wrapt_extensions, h, h2]
  · simp [get_psutil_extensions, h]
  · simp [get_psutil_extensions, h, h2]

/-- Witness for C7: with no vendored descriptor present, the msgpack loader
returns the empty list and the warning naming msgpack and the error. -/
theorem C7_loader_error_demotion_witness :
    get_msgpack_extensions (3, 6) "" demoFiles demoGetExts demoState =
      (([], [loadWarn "msgpack"
        (Exc.other "FileNotFoundError" "ddtrace/vendor/msgpack/setup.py")]), demoState) :=
  (C7_loader_error_demotion (3, 6) "" demoFiles demoGetExts demoState
    (Exc.other "FileNotFoundError" "ddtrace/vendor/msgpack/setup.py")).1 rfl

/-- C8: the State A kwargs construction leaves the base `setup_kwargs` dict
unchanged: the original cell still holds the base value, the values a
State B call would receive equal the initial ones (no `ext_modules` key,
the original `cmdclass`), while the deep copy used by State A carries the
extensions and the `optional_build_ext` handler. -/
theorem C8_kwargs_frame (exts : List Ext) :
    (stateA_heap exts).kcells.lookup 0 = some setup_kwargs_val ∧
    heapSnapshot (stateA_heap exts) 0 = heapSnapshot initHeap 0 ∧
    (heapSnapshot (stateA_heap exts) 0).ext_modules = none ∧
    (heapSnapshot (stateA_heap exts) 0).cmdclass = [("test", CmdClass.tox)] ∧
    heapSnapshot (stateA_heap exts) stateA_ref =
      { meta := setup_kwargs_meta, ext_modules := some exts,
        cmdclass := [("test", CmdClass.tox), ("build_ext", CmdClass.optionalBuildExt)] } :=
  ⟨rfl, rfl, rfl, rfl, rfl⟩

/-- C9: when every failing extension compilation raises a recognized
build error, the error is demoted inside `optional_build_ext`, never
reaches the module-level handler, and the installation completes with one
`setup` call and no escaping exception — for every value of
`DDTRACE_BUILD_RAISE`, the strict `"TRUE"` included. -/
theorem C9_strict_mode_build_still_resilient (ver : Nat × Nat) (here : String)
    (files : String → Option FileCode) (getExts : PyModule → Except Exc (List Ext))
    (platform : String) (compile : Ext → Option Exc) (env : Option String)
    (st : ImportState)
    (h : ∀ ext e, compile ext = some e → build_ext_errors platform e = true) :
    module_main ver here files getExts (setup_with_build platform compile) env st =
      ((collect_extensions ver here files getExts st).1.2, none,
       [stateA_snapshot ver here files getExts st]) := by
  have hA : setup_with_build platform compile
      (heapSnapshot (stateA_heap (collect_extensions ver here files getExts st).1.1)
        stateA_ref) = none := by
    have hloop := build_extensions_loop_ok platform compile h
      (collect_extensions ver here files getExts st).1.1
    rw [snapshotA_eq]
    cases hb : build_extensions_loop platform compile
        (collect_extensions ver here files getExts st).1.1 with
    | mk ws r =>
        rw [hb] at hloop
        simp only at hloop
        subst hloop
        simp [setup_with_build, List.lookup, optional_run, hb]
  simp [module_main, hA, stateA_snapshot]

/-- Witness for C9: with two extensions loaded, a compiler that always
fails with `CCompilerError`, and the strict override set to `"TRUE"`, the
script still finishes with a single `setup` call and no exception. -/
theorem C9_strict_mode_build_still_resilient_witness :
    module_main (3, 6) "" demoFiles2 demoGetExts2
      (setup_with_build "linux" demoCompileFail) (some "TRUE") demoState =
      ((collect_extensions (3, 6) "" demoFiles2 demoGetExts2 demoState).1.2, none,
       [stateA_snapshot (3, 6) "" demoFiles2 demoGetExts2 demoState]) :=
  C9_strict_mode_build_still_resilient (3, 6) "" demoFiles2 demoGetExts2 "linux"
    demoCompileFail (some "TRUE") demoState
    (fun ext e he => by simp [demoCompileFail] at he; subst he; rfl)

/-- C6 counterexample: on the Python 3.4 branch
(`SourceFileLoader(...).load_module()`), loading the msgpack descriptor
into an interpreter whose module cache starts empty returns a state whose
`sys.modules` now holds the loaded module — the loader cached the module in
interpreter-global state, contradicting `never cached` and `shares no
global state with the umbrella package`. -/
theorem C6_legacy_branch_caches :
    load_module_from_project_file (3, 4) "" demoFiles2 "ddtrace.vendor.msgpack.setup"
        "ddtrace/vendor/msgpack/setup.py" demoState =
      Except.ok ({ name := "ddtrace.vendor.msgpack.setup", objId := 0, code := 1 },
        { sysModules := [("ddtrace.vendor.msgpack.setup",
            { name := "ddtrace.vendor.msgpack.setup", objId := 0, code := 1 })],
          executed := ["ddtrace/vendor/msgpack/setup.py"],
          nextId := 1 }) ∧
    demoState.sysModules = [] := ⟨rfl, rfl⟩

/-- C6 (amended): `load_module_from_project_file` loads the target file as
an independently named module without executing any other file (in
particular no umbrella package initialization); on Python 3.5 and later it
allocates a fresh module object on every call and leaves `sys.modules`
untouched, while on the legacy branches (Python below 3.5) the loaded
module is additionally registered in `sys.modules`. -/
theorem C6_loader_isolation (ver : Nat × Nat) (here : String)
    (files : String → Option FileCode) (name fname : String) (st : ImportState)
    (fc : FileCode) (hf : files (joinPath here fname) = some fc)
    (hr : fc.raises = none) :
    (verGE ver (3, 5) = true →
      load_module_from_project_file ver here files name fname st =
        .ok ({ name := name, objId := st.nextId, code := fc.codeId },
             { st with nextId := st.nextId + 1,
                       executed := st.executed ++ [joinPath here fname] })) ∧
    (verGE ver (3, 5) = false →
      ∀ md st2, load_module_from_project_file ver here files name fname st = .ok (md, st2) →
        st2.sysModules.lookup name = some md ∧
        st2.executed = st.executed ++ [joinPath here fname]) := by
  constructor
  · intro hv
    simp [load_module_from_project_file, hv, import35, hf, hr]
  · intro hv md st2 hload
    simp only [load_module_from_project_file, hv, Bool.false_eq_true, if_false,
      importLegacy, hf, hr] at hload
    cases hl : st.sysModules.lookup name with
    | none =>
        rw [hl] at hload
        simp only [Except.ok.injEq, Prod.mk.injEq] at hload
        obtain ⟨hmd, hst⟩ := hload
        subst hmd; subst hst
        exact ⟨assocSet_lookup name _ st.sysModules, rfl⟩
    | some m0 =>
        rw [hl] at hload
        simp only [Except.ok.injEq, Prod.mk.injEq] at hload
        obtain ⟨hmd, hst⟩ := hload
        subst hmd; subst hst
        exact ⟨assocSet_lookup name _ st.sysModules, rfl⟩

/-- Witness for the amended C6: on Python 3.6 the msgpack descriptor is
loaded fresh (object id equal to the allocator value, `sys.modules`
untouched) and only the target file is executed. -/
theorem C6_loader_isolation_witness :
    load_module_from_project_file (3, 6) "" demoFiles2 "ddtrace.vendor.msgpack.setup"
        "ddtrace/vendor/msgpack/setup.py" demoState =
      .ok ({ name := "ddtrace.vendor.msgpack.setup", objId := 0, code := 1 },
           { sysModules := [], executed := ["ddtrace/vendor/msgpack/setup.py"],
             nextId := 1 }) :=
  (C6_loader_isolation (3, 6) "" demoFiles2 "ddtrace.vendor.msgpack.setup"
    "ddtrace/vendor/msgpack/setup.py" demoState { codeId := 1, raises := none }
    rfl rfl).1 rfl

end DDSetup
